import Mathlib

/-!
Shallow embedding of the Laxman Telegram image-to-PDF bot
(src/bot.py and src/imghdr.py).

Python dictionaries are modelled as records with `Option` fields (a `none`
field is an absent key) or as functions `String → Option Meta` (the files
index).  Machine arithmetic is exact: Python ints are `Nat`/`Int`; the float
expressions `MAX_DIMENSION_PX / max(w, h)` and `int(w * ratio)` in
`ensure_image_dimensions` are modelled by exact natural division
`w * MAX_DIMENSION_PX / m` (the mathematical floor), and point arithmetic by
`ℚ`.  Telegram, Pillow and img2pdf are external collaborators: their results
are supplied by an `Env` record of oracles, and `img2pdf.convert` is modelled
by its documented contract (one page per input image, in input order, sized
by the `pagesize` argument or by the image itself, with the uniform border
taken from its `border` argument, which `bot.py` never passes).
-/

namespace Laxman

/-- Configuration constants, src/bot.py lines 41-47. -/
def ADMINS : List Int := [6047187036]

def MAX_IMAGES : Nat := 25

def MAX_FILE_SIZE_BYTES : Nat := 10 * 1024 * 1024

def MAX_DIMENSION_PX : Nat := 4000

def DEFAULT_PAGE_SIZE : String := "AUTO"

def DEFAULT_MARGIN_MM : Int := 0

/-- src/bot.py `is_admin` (line 87). -/
def is_admin (user_id : Int) : Bool := ADMINS.contains user_id

/-- A decoded raster image: pixel dimensions, as reported by `PIL.Image.size`. -/
structure Image where
  width : Nat
  height : Nat
deriving DecidableEq, Repr

/-- The `new_size = (int(w * ratio), int(h * ratio))` computation of
src/bot.py line 113, with `ratio = MAX_DIMENSION_PX / max(w, h)` (line 112).
The Python float arithmetic is modelled by exact natural division (floor). -/
def new_size (img : Image) : Image :=
  let m := max img.width img.height
  ⟨img.width * MAX_DIMENSION_PX / m, img.height * MAX_DIMENSION_PX / m⟩

/-- src/bot.py `ensure_image_dimensions` (lines 100-121), acting on the decoded
image.  `some (img2, resized)` models `return True` with `img2` the image now
stored at the path and `resized` the flag "the file was overwritten" (the
resized-and-saved branch).  `none` models `return False` from the blanket
`except` at line 119: when a computed dimension of `new_size` floors to zero
(aspect ratio more extreme than the ceiling allows), Pillow's
`resize`/JPEG `save` raises, so the function returns False and the file is
not mutated.  The other source of `return False`, a file `Image.open` cannot
decode, is handled by the caller (see `FileInfo.decoded`). -/
def ensure_image_dimensions (img : Image) : Option (Image × Bool) :=
  let m := max img.width img.height
  if m ≤ MAX_DIMENSION_PX then some (img, false)
  else
    if (new_size img).width = 0 ∨ (new_size img).height = 0 then none
    else some (new_size img, true)

/-- The per-session `pdf_options` dict; a `none` field is an absent key
(`setdefault("pdf_options", {})` creates the dict with no keys). -/
structure PdfOptions where
  page_size : Option String := none
  margin_mm : Option Int := none
deriving DecidableEq, Repr

/-- The per-chat session dict `context.user_data`, holding the pending
photo file_ids (absent key reads as `[]` via `.get("photos", [])`) and the
`pdf_options` dict. -/
structure UserData where
  photos : List String := []
  pdf_options : Option PdfOptions := none
deriving DecidableEq, Repr

/-- The dict `context.user_data.get("pdf_options", {...defaults...})`. -/
def getPdfOptions (ud : UserData) : PdfOptions := ud.pdf_options.getD {}

/-- Effective page size: `pdf_opts.get("page_size", DEFAULT_PAGE_SIZE)`. -/
def effPageSize (ud : UserData) : String :=
  (getPdfOptions ud).page_size.getD DEFAULT_PAGE_SIZE

/-- Effective margin: `int(pdf_opts.get("margin_mm", DEFAULT_MARGIN_MM))`. -/
def effMarginMM (ud : UserData) : Int :=
  (getPdfOptions ud).margin_mm.getD DEFAULT_MARGIN_MM

/-- src/bot.py `pagesize_cmd` (lines 442-452).  The argument is `args[0]`;
`val = args[0].upper()` is validated against AUTO/A4/LETTER, and on success
`setdefault("pdf_options", {})["page_size"] = val`.  The Bool records
whether the value was accepted. -/
def pagesize_cmd (ud : UserData) (arg : String) : UserData × Bool :=
  let val := arg.toUpper
  if val = "AUTO" ∨ val = "A4" ∨ val = "LETTER" then
    let opts := ud.pdf_options.getD {}
    ({ ud with pdf_options := some { opts with page_size := some val } }, true)
  else (ud, false)

/-- src/bot.py `margin_cmd` (lines 455-466).  `arg = none` models an argument
that fails `int(args[0])`; otherwise `mm = max(0, int(args[0]))` is stored
under `margin_mm`. -/
def margin_cmd (ud : UserData) (arg : Option Int) : UserData × Bool :=
  match arg with
  | none => (ud, false)
  | some n =>
    let opts := ud.pdf_options.getD {}
    ({ ud with pdf_options := some { opts with margin_mm := some (max 0 n) } }, true)

/-- Outcome of one `photo_handler` invocation. -/
inductive AppendResult where
  | SizeExceeded
  | CapacityExceeded
  | ok (count : Nat)
deriving DecidableEq, Repr

/-- src/bot.py `photo_handler` (lines 155-184).  `file_size` is the
Telegram-declared size (`getattr(photo, "file_size", None)`); the Python
truthiness test `if file_size and file_size > MAX_FILE_SIZE_BYTES` is
`file_size.getD 0 > MAX_FILE_SIZE_BYTES`.  Then the cap check
`len(photos) >= MAX_IMAGES` rejects, else the file_id is appended and the
new count reported. -/
def photo_handler (ud : UserData) (file_id : String) (file_size : Option Nat) :
    AppendResult × UserData :=
  if file_size.getD 0 > MAX_FILE_SIZE_BYTES then (.SizeExceeded, ud)
  else if ud.photos.length ≥ MAX_IMAGES then (.CapacityExceeded, ud)
  else
    let photos := ud.photos ++ [file_id]
    (.ok photos.length, { ud with photos := photos })

/-- A sequence of inbound photo messages, folded through `photo_handler`. -/
def appendAll (ud : UserData) : List (String × Option Nat) → UserData
  | [] => ud
  | item :: rest => appendAll (photo_handler ud item.1 item.2).2 rest

/-- src/bot.py `cancel` (lines 328-330): `context.user_data.clear()`. -/
def cancel (_ud : UserData) : UserData := {}

/-- The external converter's `img2pdf.mm_to_pt`: `(72.0 * length) / 25.4`,
in exact rational arithmetic. -/
def mm_to_pt (x : ℚ) : ℚ := 72 * x / 25.4

/-- img2pdf's default input resolution (96 dpi) for images carrying no
resolution metadata; a pixel becomes `72 / 96` points. -/
def px_to_pt (px : Nat) : ℚ := px * 72 / 96

/-- src/bot.py line 799 (dead code): `margin_pt = int(margin_mm) * 2.834645`.
The value is computed but never passed to `img2pdf.convert`. -/
def margin_pt (margin_mm : Int) : ℚ := margin_mm * 2.834645

/-- One page of the produced PDF: the embedded image, the page dimensions in
points, and the uniform border (margin) applied to all four edges. -/
structure Page where
  image : Image
  width_pt : ℚ
  height_pt : ℚ
  border_pt : ℚ
deriving DecidableEq, Repr

/-- One page as laid out by the external converter: with an explicit
`pagesize` the page has exactly those dimensions; without one (AUTO) the page
is the image's own size plus the border on each side. -/
def mkPage (pagesize : Option (ℚ × ℚ)) (border : ℚ) (img : Image) : Page :=
  match pagesize with
  | some (w, h) => ⟨img, w, h, border⟩
  | none => ⟨img, px_to_pt img.width + 2 * border, px_to_pt img.height + 2 * border, border⟩

/-- Modelled contract of the external `img2pdf.convert(paths, ...)`: one page
per input image, in input order.  `border` is the uniform margin argument,
which defaults to zero and which src/bot.py never passes. -/
def img2pdf_convert (imgs : List Image) (pagesize : Option (ℚ × ℚ)) (border : ℚ) :
    List Page :=
  imgs.map (mkPage pagesize border)

/-- src/bot.py lines 793-797: the `pagesize_arg` passed to `img2pdf.convert`
(mirrored also by `img2pdf_layout_args`, lines 646-661). -/
def pagesizeArg (page_size : String) : Option (ℚ × ℚ) :=
  if page_size = "A4" then some (mm_to_pt 210, mm_to_pt 297)
  else if page_size = "LETTER" then some (mm_to_pt 216, mm_to_pt 279)
  else none

/-- What the bot learns about one Telegram photo during the download loop of
`convert_to_pdf`: the size declared by `get_file`, the on-disk size after
`download_to_drive`, and the Pillow decode result (`none` when
`ensure_image_dimensions` cannot open the file and returns `False`). -/
structure FileInfo where
  declared_size : Option Nat
  disk_size : Nat
  decoded : Option Image

/-- The external world of one `convert_to_pdf` run: per-file oracles plus the
failure switches of the conversion and send steps and the data Telegram
attaches to the sent document. -/
structure Env where
  files : String → FileInfo
  convert_raises : Bool
  send_raises : Bool
  sent_file_id : Option String
  from_user_id : Option Int
  hash6 : String
  now : Int

/-- The user-visible outcome of `convert_to_pdf`; each error constructor is
the corresponding `reply_text` + early `return`, `conversionError` is the
outer `except` branch ("Error while creating PDF. Try again later."), and
`success` carries the produced pages and whether the result was indexed. -/
inductive ConvertOutcome where
  | noImages
  | declaredTooBig (i : Nat)
  | downloadedTooBig (i : Nat)
  | imageProcessFailed (i : Nat)
  | conversionError
  | success (pdf : List Page) (indexed : Bool)
deriving DecidableEq, Repr

def ConvertOutcome.isSuccess : ConvertOutcome → Bool
  | .success _ _ => true
  | _ => false

/-- The three per-image early-`return` paths of the download loop. -/
inductive DownloadError where
  | declaredTooBig (i : Nat)
  | downloadedTooBig (i : Nat)
  | imageProcessFailed (i : Nat)
deriving DecidableEq, Repr

/-- The user-visible outcome of each download-loop early return. -/
def DownloadError.toOutcome : DownloadError → ConvertOutcome
  | .declaredTooBig i => .declaredTooBig i
  | .downloadedTooBig i => .downloadedTooBig i
  | .imageProcessFailed i => .imageProcessFailed i

/-- The download loop of `convert_to_pdf` (src/bot.py lines 257-278),
started at index 1 (`enumerate(photos, start=1)`): per photo, the declared
size check, the on-disk size check, then `ensure_image_dimensions`, whose
`return False` (file does not decode, or the resize raises) aborts with the
"Image #i ko process nahi kar paya" reply. -/
def download_images (env : Env) : List String → Nat → Except DownloadError (List Image)
  | [], _ => .ok []
  | fid :: rest, i =>
    let info := env.files fid
    if info.declared_size.getD 0 > MAX_FILE_SIZE_BYTES then .error (.declaredTooBig i)
    else if info.disk_size > MAX_FILE_SIZE_BYTES then .error (.downloadedTooBig i)
    else
      match info.decoded with
      | none => .error (.imageProcessFailed i)
      | some img =>
        match ensure_image_dimensions img with
        | none => .error (.imageProcessFailed i)
        | some res =>
          match download_images env rest (i + 1) with
          | .error e => .error e
          | .ok imgs => .ok (res.1 :: imgs)

/-- One record of the files index (src/bot.py lines 75-81). -/
structure Meta where
  file_id : String
  title : String
  uploader : Option Int
  time : Int
deriving DecidableEq, Repr

/-- The files index `context.bot_data["files"]`: a dict from slug to record. -/
abbrev Catalog : Type := String → Option Meta

/-- Dict insertion `index[slug] = meta`. -/
def Catalog.set (cat : Catalog) (slug : String) (m : Meta) : Catalog :=
  fun k => if k = slug then some m else cat k

/-- Dict removal `del index[slug]`. -/
def Catalog.del (cat : Catalog) (slug : String) : Catalog :=
  fun k => if k = slug then none else cat k

/-- src/bot.py `make_slug` (lines 67-69):
`(title or "file").lower().strip().replace(" ", "_")` plus an underscore and
the first six hex digits of a time-salted md5, supplied as the oracle
`hash6`. -/
def make_slug (title hash6 : String) : String :=
  ((if title = "" then "file" else title).toLower.trim.replace " " "_") ++ "_" ++ hash6

/-- src/bot.py `index_pdf` (lines 72-83): insert the record for the freshly
sent PDF under a new slug.  Returns the slug and the updated index. -/
def index_pdf (cat : Catalog) (title file_id : String) (uploader_id : Option Int)
    (hash6 : String) (now : Int) : String × Catalog :=
  let slug := make_slug title hash6
  (slug, cat.set slug ⟨file_id, title, uploader_id, now⟩)

/-- src/bot.py line 303: `" / ".join([str(p) for p in photos])[:128]`. -/
def convert_title (photos : List String) : String :=
  (String.intercalate " / " photos).take 128

/-- src/bot.py `convert_to_pdf` (lines 243-319, identically lines 757-837):
the whole conversion pipeline over the current session, threading the session
dict and the files index.  Every early-`return` error path and the outer
`except` leave both unchanged; only the success path (after `reply_document`)
runs `index_pdf` (when the sent message carries a document file_id; an
indexing exception is caught and only logged) and then
`context.user_data.clear()`. -/
def convert_to_pdf (env : Env) (ud : UserData) (cat : Catalog) :
    ConvertOutcome × UserData × Catalog :=
  if ud.photos.isEmpty then (.noImages, ud, cat)
  else
    match download_images env ud.photos 1 with
    | .error e => (e.toOutcome, ud, cat)
    | .ok imgs =>
      if env.convert_raises then (.conversionError, ud, cat)
      else
        let pdf := img2pdf_convert imgs (pagesizeArg (effPageSize ud)) 0
        if env.send_raises then (.conversionError, ud, cat)
        else
          match env.sent_file_id with
          | some fid =>
            (.success pdf true, {},
              (index_pdf cat (convert_title ud.photos) fid env.from_user_id
                env.hash6 env.now).2)
          | none => (.success pdf false, {}, cat)

/-- Python `str.strip()`: drop leading and trailing whitespace.  Implemented
by structural recursion on the character list so that it evaluates on
literals (core `String.trim` is extensionally the same but does not
kernel-reduce). -/
def pyStrip (s : String) : String :=
  ⟨((s.data.dropWhile Char.isWhitespace).reverse.dropWhile Char.isWhitespace).reverse⟩

/-- Outcome of the catalog commands. -/
inductive CmdOutcome where
  | usage
  | notFound
  | unauthorized
  | done
deriving DecidableEq, Repr

/-- src/bot.py `get_cmd` (lines 360-376): look up `args[0].strip()` in the
index (the found record is then sent to the chat). -/
def get_cmd (cat : Catalog) (args : List String) : Option Meta :=
  match args with
  | [] => none
  | slug0 :: _ => cat (pyStrip slug0)

/-- src/bot.py `rename_cmd` (lines 419-438): requires two arguments; the
entry must exist; the requester must be the original uploader or an admin;
then the title is overwritten in place and the index saved. -/
def rename_cmd (cat : Catalog) (args : List String) (user_id : Int) :
    CmdOutcome × Catalog :=
  if args.length < 2 then (.usage, cat)
  else
    let slug := pyStrip (args.headD "")
    let new_title := pyStrip (String.intercalate " " args.tail)
    match cat slug with
    | none => (.notFound, cat)
    | some m =>
      if m.uploader ≠ some user_id ∧ is_admin user_id = false then (.unauthorized, cat)
      else (.done, cat.set slug { m with title := new_title })

/-- src/bot.py `delete_cmd` (lines 400-416): requires an argument; the
requester must be an admin (checked before the slug is even looked up); the
slug must exist; then the entry is removed and the index saved. -/
def delete_cmd (cat : Catalog) (args : List String) (user_id : Int) :
    CmdOutcome × Catalog :=
  match args with
  | [] => (.usage, cat)
  | slug0 :: _ =>
    if is_admin user_id = false then (.unauthorized, cat)
    else
      let slug := pyStrip slug0
      match cat slug with
      | none => (.notFound, cat)
      | some _ => (.done, cat.del slug)

/-- The possible call shapes of src/imghdr.py `what(file, h)`: explicit header
bytes (`h is not None`), a raw bytes object as `file`, or a file-like object
whose `read(512)` yields the given bytes or raises (`none`). -/
inductive WhatInput where
  | header (h : List Nat)
  | rawBytes (b : List Nat)
  | fileLike (readResult : Option (List Nat))

/-- src/imghdr.py `what` (lines 5-61).  `decode` is the Pillow oracle:
`Image.open(BytesIO(data)); img.format`, where `none` stands for an
exception or a missing format (the code treats both as "not an image"),
and an empty-string format falls to the same `if not fmt` branch.  The
per-format mapping (jpeg to 'jpeg' and so on, `return fmt` otherwise) is the
identity on the lowercased format, so the embedding applies `toLower`
directly.  All exception paths of the source return `None`, modelled as
`none`. -/
def what (decode : List Nat → Option String) (input : WhatInput) : Option String :=
  let data : Option (List Nat) :=
    match input with
    | .header h => some h
    | .rawBytes b => some b
    | .fileLike r => r
  match data with
  | none => none
  | some d =>
    if d = [] then none
    else
      match decode d with
      | none => none
      | some fmt => if fmt = "" then none else some fmt.toLower

/-! Concrete inputs used by the counterexample and the witnesses. -/

/-- A small decodable image, within the dimension ceiling. -/
def img800 : Image := ⟨800, 600⟩

/-- The oracle data of a photo that downloads and decodes cleanly. -/
def info0 : FileInfo := ⟨none, 100, some img800⟩

/-- An environment in which every step of the pipeline succeeds (Telegram
attaches no document file_id to the sent message, so indexing is skipped). -/
def env0 : Env := ⟨fun _ => info0, false, false, none, some 42, "1a2b3c", 1700000000⟩

/-- An environment in which `img2pdf.convert` raises. -/
def envFail : Env := { env0 with convert_raises := true }

/-- The empty files index. -/
def cat0 : Catalog := fun _ => none

/-- A one-photo session whose options request A4 pages and a 5 mm margin. -/
def udA4 : UserData := ⟨["p1"], some ⟨some "A4", some 5⟩⟩

/-- A session already holding `MAX_IMAGES` pending photos. -/
def udFull : UserData := ⟨List.replicate MAX_IMAGES "x", none⟩

/-- A stored-PDF record uploaded by user 7 (not an admin). -/
def meta1 : Meta := ⟨"fid1", "Old Title", some 7, 1700000000⟩

/-- A files index holding the single entry `meta1` under a fixed slug. -/
def cat1 : Catalog := Catalog.set cat0 "doc_1a2b3c" meta1

/-!  Helper lemmas about the session store. -/

theorem photo_handler_succeeds (ud : UserData) (fid : String) (sz : Option Nat)
    (hsz : sz.getD 0 ≤ MAX_FILE_SIZE_BYTES) (hlen : ud.photos.length < MAX_IMAGES) :
    photo_handler ud fid sz =
      (.ok (ud.photos.length + 1), { ud with photos := ud.photos ++ [fid] }) := by
  simp only [photo_handler]
  rw [if_neg (by omega), if_neg (by omega)]
  simp

theorem photo_handler_at_capacity (ud : UserData) (fid : String) (sz : Option Nat)
    (hsz : sz.getD 0 ≤ MAX_FILE_SIZE_BYTES) (hlen : ud.photos.length ≥ MAX_IMAGES) :
    photo_handler ud fid sz = (.CapacityExceeded, ud) := by
  simp only [photo_handler]
  rw [if_neg (by omega), if_pos hlen]

theorem photo_handler_length_le (ud : UserData) (fid : String) (sz : Option Nat)
    (h : ud.photos.length ≤ MAX_IMAGES) :
    ((photo_handler ud fid sz).2).photos.length ≤ MAX_IMAGES := by
  simp only [photo_handler]
  split_ifs with h1 h2
  · exact h
  · exact h
  · simp only [List.length_append, List.length_singleton]
    omega

theorem appendAll_length_le (items : List (String × Option Nat)) :
    ∀ ud : UserData, ud.photos.length ≤ MAX_IMAGES →
      (appendAll ud items).photos.length ≤ MAX_IMAGES := by
  induction items with
  | nil => intro ud h; exact h
  | cons a rest ih =>
    intro ud h
    exact ih _ (photo_handler_length_le ud a.1 a.2 h)

theorem appendAll_photos (items : List (String × Option Nat)) :
    ∀ ud : UserData, ud.photos.length + items.length ≤ MAX_IMAGES →
      (∀ p ∈ items, p.2.getD 0 ≤ MAX_FILE_SIZE_BYTES) →
      (appendAll ud items).photos = ud.photos ++ items.map Prod.fst := by
  induction items with
  | nil => intro ud _ _; simp [appendAll]
  | cons a rest ih =>
    intro ud hlen hsz
    simp only [appendAll]
    have hl : ud.photos.length < MAX_IMAGES := by
      simp only [List.length_cons] at hlen; omega
    rw [photo_handler_succeeds ud a.1 a.2 (hsz a (by simp)) hl]
    have hlen2 : ({ ud with photos := ud.photos ++ [a.1] } : UserData).photos.length
        + rest.length ≤ MAX_IMAGES := by
      simp only [List.length_cons] at hlen
      simp only [List.length_append, List.length_singleton]
      omega
    rw [ih _ hlen2 (fun p hp => hsz p (by simp [hp]))]
    simp

/-- C2: the pending-image count never exceeds the cap of 25; a sequence of
N ≤ cap in-size appends from a fresh session all succeed, leaving exactly
those file_ids in order (count = N); a single in-size append below the cap
succeeds reporting the new count; and an append attempted at the cap is
rejected with CapacityExceeded, leaving the session (count and pending list)
unchanged. -/
theorem claim_C2_capacity :
    (∀ (ud : UserData) (items : List (String × Option Nat)),
        ud.photos.length ≤ MAX_IMAGES →
        (appendAll ud items).photos.length ≤ MAX_IMAGES) ∧
    (∀ items : List (String × Option Nat),
        items.length ≤ MAX_IMAGES →
        (∀ p ∈ items, p.2.getD 0 ≤ MAX_FILE_SIZE_BYTES) →
        (appendAll {} items).photos = items.map Prod.fst) ∧
    (∀ (ud : UserData) (fid : String) (sz : Option Nat),
        sz.getD 0 ≤ MAX_FILE_SIZE_BYTES →
        ud.photos.length < MAX_IMAGES →
        photo_handler ud fid sz =
          (.ok (ud.photos.length + 1), { ud with photos := ud.photos ++ [fid] })) ∧
    (∀ (ud : UserData) (fid : String) (sz : Option Nat),
        sz.getD 0 ≤ MAX_FILE_SIZE_BYTES →
        ud.photos.length = MAX_IMAGES →
        photo_handler ud fid sz = (.CapacityExceeded, ud)) := by
  refine ⟨fun ud items h => appendAll_length_le items ud h, ?_, ?_, ?_⟩
  · intro items hlen hsz
    have := appendAll_photos items {} (by simpa using hlen) hsz
    simpa using this
  · exact fun ud fid sz hsz hlen => photo_handler_succeeds ud fid sz hsz hlen
  · exact fun ud fid sz hsz hlen => photo_handler_at_capacity ud fid sz hsz (le_of_eq hlen.symm)

/-- Witness for C2 at concrete inputs: two in-size appends from a fresh
session succeed in order; a session already holding 25 photos rejects a
further append and is left unchanged. -/
theorem claim_C2_capacity_witness :
    (appendAll {} [("a", some 10), ("b", none)]).photos = ["a", "b"] ∧
    photo_handler udFull "y" (some 10) = (.CapacityExceeded, udFull) := by
  refine ⟨?_, ?_⟩
  · have := claim_C2_capacity.2.1 [("a", some 10), ("b", none)]
      (by decide) (by decide)
    simpa using this
  · exact claim_C2_capacity.2.2.2 udFull "y" (some 10) (by decide) (by decide)

/-- C8: per-key idempotence of option mutation: applying `pagesize_cmd`
(resp. `margin_cmd`) twice with the same argument yields exactly the state
and reply of applying it once; re-setting overwrites the single key and
never appends. -/
theorem claim_C8_set_option_idempotent (ud : UserData) (psArg : String)
    (mmArg : Option Int) :
    pagesize_cmd (pagesize_cmd ud psArg).1 psArg = pagesize_cmd ud psArg ∧
    margin_cmd (margin_cmd ud mmArg).1 mmArg = margin_cmd ud mmArg := by
  obtain ⟨photos, po⟩ := ud
  constructor
  · cases po with
    | none => simp only [pagesize_cmd]; split_ifs <;> rfl
    | some opts =>
      obtain ⟨ps, mm⟩ := opts
      simp only [pagesize_cmd]; split_ifs <;> rfl
  · cases mmArg with
    | none => rfl
    | some n =>
      cases po with
      | none => rfl
      | some opts => obtain ⟨ps, mm⟩ := opts; rfl

/-- C6 counterexample: the 1 by 4001 image's long edge exceeds the 4000 px
ceiling, yet the normalizer does not resize it: the computed width
`int(1 * 4000 / 4001)` floors to zero, Pillow's resize/JPEG save raises, the
blanket `except` at bot.py line 119 returns False (no mutation), and the
caller aborts that image — refuting the claim's universal resize guarantee
("for every decodable image whose long edge exceeds the ceiling, the output's
long edge equals the ceiling"). -/
theorem claim_C6_counterexample :
    MAX_DIMENSION_PX < max (1 : Nat) 4001 ∧
    new_size ⟨1, 4001⟩ = ⟨0, 4000⟩ ∧
    ensure_image_dimensions ⟨1, 4001⟩ = none :=
  ⟨by decide, by decide, by decide⟩

/-- C6 as amended: the normalizer leaves an image whose long edge is within
the 4000 px ceiling untouched (no file mutation).  For an image whose long
edge exceeds the ceiling, if either computed dimension of `new_size` floors
to zero (aspect ratio more extreme than 4000 to 1) the resize raises, the
function reports failure and the file is not mutated; otherwise the file is
rewritten, the output's long edge equals the ceiling exactly (in the
exact-arithmetic model; the Python float computation agrees to within one
pixel), and each output dimension is the floor of the uniform scaling of the
input dimension (aspect ratio preserved up to rounding): writing m for the
input long edge, out_w * m ≤ w * 4000 < out_w * m + m and likewise for the
height. -/
theorem claim_C6_normalizer (img : Image) :
    (max img.width img.height ≤ MAX_DIMENSION_PX →
        ensure_image_dimensions img = some (img, false)) ∧
    (MAX_DIMENSION_PX < max img.width img.height →
      ((new_size img).width = 0 ∨ (new_size img).height = 0 →
          ensure_image_dimensions img = none) ∧
      ((new_size img).width ≠ 0 → (new_size img).height ≠ 0 →
          ensure_image_dimensions img = some (new_size img, true) ∧
          max (new_size img).width (new_size img).height = MAX_DIMENSION_PX ∧
          ((new_size img).width * max img.width img.height
              ≤ img.width * MAX_DIMENSION_PX ∧
            img.width * MAX_DIMENSION_PX
              < (new_size img).width * max img.width img.height
                  + max img.width img.height) ∧
          ((new_size img).height * max img.width img.height
              ≤ img.height * MAX_DIMENSION_PX ∧
            img.height * MAX_DIMENSION_PX
              < (new_size img).height * max img.width img.height
                  + max img.width img.height))) := by
  constructor
  · intro hle
    rw [ensure_image_dimensions, if_pos hle]
  · intro hgt
    constructor
    · intro hzero
      rw [ensure_image_dimensions, if_neg (not_le.mpr hgt), if_pos hzero]
    · intro hw hh
      have hnz : ¬((new_size img).width = 0 ∨ (new_size img).height = 0) := by
        rintro (h0 | h0)
        · exact hw h0
        · exact hh h0
      refine ⟨by rw [ensure_image_dimensions, if_neg (not_le.mpr hgt), if_neg hnz], ?_⟩
      obtain ⟨w, h⟩ := img
      simp only [new_size] at *
      have hm : 0 < max w h := by
        have : (0 : Nat) < MAX_DIMENSION_PX := by norm_num [MAX_DIMENSION_PX]
        omega
      refine ⟨?_, ⟨Nat.div_mul_le_self _ _, ?_⟩, ⟨Nat.div_mul_le_self _ _, ?_⟩⟩
      · rcases le_total w h with hwh | hhw
        · rw [max_eq_right hwh] at hm ⊢
          have hdw : w * MAX_DIMENSION_PX / h ≤ MAX_DIMENSION_PX := by
            calc w * MAX_DIMENSION_PX / h ≤ h * MAX_DIMENSION_PX / h :=
                  Nat.div_le_div_right (Nat.mul_le_mul_right _ hwh)
              _ = MAX_DIMENSION_PX := Nat.mul_div_cancel_left _ hm
          rw [Nat.mul_div_cancel_left _ hm]
          exact max_eq_right hdw
        · rw [max_eq_left hhw] at hm ⊢
          have hdh : h * MAX_DIMENSION_PX / w ≤ MAX_DIMENSION_PX := by
            calc h * MAX_DIMENSION_PX / w ≤ w * MAX_DIMENSION_PX / w :=
                  Nat.div_le_div_right (Nat.mul_le_mul_right _ hhw)
              _ = MAX_DIMENSION_PX := Nat.mul_div_cancel_left _ hm
          rw [Nat.mul_div_cancel_left _ hm]
          exact max_eq_left hdh
      · exact Nat.lt_div_mul_add hm
      · exact Nat.lt_div_mul_add hm

/-- Witness for C6: an 800 by 600 image is returned untouched; an 8000 by 6000
image is resized to `new_size ⟨8000, 6000⟩` (4000 by 3000) with all the
stated bounds; a 1 by 4001 image hits the zero-dimension failure path. -/
theorem claim_C6_normalizer_witness :
    ensure_image_dimensions ⟨800, 600⟩ = some (⟨800, 600⟩, false) ∧
    (ensure_image_dimensions ⟨8000, 6000⟩ = some (new_size ⟨8000, 6000⟩, true) ∧
      max (new_size ⟨8000, 6000⟩).width (new_size ⟨8000, 6000⟩).height
        = MAX_DIMENSION_PX ∧
      ((new_size ⟨8000, 6000⟩).width * max 8000 6000 ≤ 8000 * MAX_DIMENSION_PX ∧
        8000 * MAX_DIMENSION_PX
          < (new_size ⟨8000, 6000⟩).width * max 8000 6000 + max 8000 6000) ∧
      ((new_size ⟨8000, 6000⟩).height * max 8000 6000 ≤ 6000 * MAX_DIMENSION_PX ∧
        6000 * MAX_DIMENSION_PX
          < (new_size ⟨8000, 6000⟩).height * max 8000 6000 + max 8000 6000)) ∧
    ensure_image_dimensions ⟨1, 4001⟩ = none :=
  ⟨(claim_C6_normalizer ⟨800, 600⟩).1 (by decide),
    ((claim_C6_normalizer ⟨8000, 6000⟩).2 (by decide)).2 (by decide) (by decide),
    ((claim_C6_normalizer ⟨1, 4001⟩).2 (by decide)).1 (by decide)⟩

/-!  Helper lemmas about the conversion pipeline. -/

theorem mkPage_image (pagesize : Option (ℚ × ℚ)) (border : ℚ) (img : Image) :
    (mkPage pagesize border img).image = img := by
  cases pagesize with
  | none => rfl
  | some p => obtain ⟨w, h⟩ := p; rfl

/-- A successful download loop decodes and successfully normalizes every
photo, in order. -/
theorem download_images_ok (env : Env) :
    ∀ (fids : List String) (i : Nat) (imgs : List Image),
      download_images env fids i = .ok imgs →
      List.Forall₂ (fun fid img => ∃ raw b, (env.files fid).decoded = some raw ∧
        ensure_image_dimensions raw = some (img, b)) fids imgs := by
  intro fids
  induction fids with
  | nil =>
    intro i imgs h
    simp only [download_images] at h
    injection h with h
    subst h
    exact .nil
  | cons fid rest ih =>
    intro i imgs h
    simp only [download_images] at h
    split_ifs at h
    split at h
    next hdec => exact absurd h (by simp)
    next raw hdec =>
      split at h
      next hnorm => exact absurd h (by simp)
      next res hnorm =>
        split at h
        next e heq => exact absurd h (by simp)
        next imgs2 heq =>
          injection h with h
          subst h
          exact .cons ⟨raw, res.2, hdec, by rw [Prod.mk.eta]; exact hnorm⟩
            (ih (i + 1) imgs2 heq)

/-- A successful conversion is exactly `img2pdf.convert` applied to the
normalized downloads with the pagesize argument derived from the options. -/
theorem convert_pdf_char (env : Env) (ud : UserData) (cat : Catalog)
    (pdf : List Page) (b : Bool)
    (h : (convert_to_pdf env ud cat).1 = .success pdf b) :
    ∃ imgs, download_images env ud.photos 1 = .ok imgs ∧
      pdf = img2pdf_convert imgs (pagesizeArg (effPageSize ud)) 0 := by
  unfold convert_to_pdf at h
  split at h
  · exact absurd h (by simp)
  · split at h
    next e heq => exact absurd h (by cases e <;> simp [DownloadError.toOutcome])
    next imgs heq =>
      split at h
      · exact absurd h (by simp)
      · split at h
        · exact absurd h (by simp)
        · split at h
          next fid heqf =>
            simp only [ConvertOutcome.success.injEq] at h
            exact ⟨imgs, heq, h.1.symm⟩
          next heqf =>
            simp only [ConvertOutcome.success.injEq] at h
            exact ⟨imgs, heq, h.1.symm⟩

/-- The session dict survives every outcome except success, where it is
cleared; the files index is untouched on every non-success outcome. -/
theorem convert_state_char (env : Env) (ud : UserData) (cat : Catalog) :
    ((convert_to_pdf env ud cat).1.isSuccess = false →
      (convert_to_pdf env ud cat).2.1 = ud ∧ (convert_to_pdf env ud cat).2.2 = cat) ∧
    ((convert_to_pdf env ud cat).1.isSuccess = true →
      (convert_to_pdf env ud cat).2.1 = ({} : UserData)) := by
  unfold convert_to_pdf
  split
  · simp [ConvertOutcome.isSuccess]
  · split
    next e heq => cases e <;> simp [DownloadError.toOutcome, ConvertOutcome.isSuccess]
    next imgs heq =>
      split
      · simp [ConvertOutcome.isSuccess]
      · split
        · simp [ConvertOutcome.isSuccess]
        · split <;> simp [ConvertOutcome.isSuccess]

/-- The one-page PDF produced by converting `udA4` under `env0`. -/
def pdfW : List Page := img2pdf_convert [img800] (pagesizeArg (effPageSize udA4)) 0

/-- The single page of `pdfW`. -/
def pageW : Page := mkPage (pagesizeArg (effPageSize udA4)) 0 img800

/-- C1 counterexample: the session `udA4` requests a 5 mm margin
(`effMarginMM udA4 = 5`), yet its successful conversion produces a page with
zero border, and 5 mm is not zero points: the claimed "uniform margin of
margin_mm millimeters applied to all four edges" is false at this input. -/
theorem claim_C1_counterexample :
    (convert_to_pdf env0 udA4 cat0).1 =
      .success [Page.mk img800 (mm_to_pt 210) (mm_to_pt 297) 0] false ∧
    effMarginMM udA4 = 5 ∧
    mm_to_pt (effMarginMM udA4) ≠ 0 :=
  ⟨rfl, rfl, by norm_num [mm_to_pt, effMarginMM, udA4, getPdfOptions]⟩

/-- C1 as amended: every page of a successful conversion honors the page-size
option — A4 gives 210 by 297 mm pages, LETTER 216 by 279 mm (at 72 / 25.4
points per millimeter), anything else (AUTO) gives a page equal to the
normalized source image's size — but the margin option is never applied: the
border of every page is zero regardless of margin_mm. -/
theorem claim_C1_amended_page_geometry (env : Env) (ud : UserData) (cat : Catalog)
    (pdf : List Page) (b : Bool)
    (h : (convert_to_pdf env ud cat).1 = .success pdf b) :
    ∀ pg ∈ pdf,
      pg.border_pt = 0 ∧
      (effPageSize ud = "A4" →
        pg.width_pt = mm_to_pt 210 ∧ pg.height_pt = mm_to_pt 297) ∧
      (effPageSize ud = "LETTER" →
        pg.width_pt = mm_to_pt 216 ∧ pg.height_pt = mm_to_pt 279) ∧
      (effPageSize ud ≠ "A4" → effPageSize ud ≠ "LETTER" →
        pg.width_pt = px_to_pt pg.image.width ∧
        pg.height_pt = px_to_pt pg.image.height) := by
  obtain ⟨imgs, hdl, hpdf⟩ := convert_pdf_char env ud cat pdf b h
  subst hpdf
  intro pg hpg
  simp only [img2pdf_convert, List.mem_map] at hpg
  obtain ⟨img, hin, hpgeq⟩ := hpg
  subst hpgeq
  by_cases hA4 : effPageSize ud = "A4"
  · have hps : pagesizeArg (effPageSize ud) = some (mm_to_pt 210, mm_to_pt 297) := by
      simp [pagesizeArg, hA4]
    refine ⟨by simp [mkPage, hps], fun _ => ⟨by simp [mkPage, hps], by simp [mkPage, hps]⟩,
      fun hL0 => absurd (hA4.symm.trans hL0) (by decide),
      fun hn _ => absurd hA4 hn⟩
  · by_cases hL : effPageSize ud = "LETTER"
    · have hps : pagesizeArg (effPageSize ud) = some (mm_to_pt 216, mm_to_pt 279) := by
        simp [pagesizeArg, hA4, hL]
      refine ⟨by simp [mkPage, hps], fun hA => absurd hA hA4,
        fun _ => ⟨by simp [mkPage, hps], by simp [mkPage, hps]⟩,
        fun _ hn => absurd hL hn⟩
    · have hps : pagesizeArg (effPageSize ud) = none := by
        simp [pagesizeArg, hA4, hL]
      refine ⟨by simp [mkPage, hps], fun hA => absurd hA hA4, fun hLe => absurd hLe hL,
        fun _ _ => ⟨by simp [mkPage, hps], by simp [mkPage, hps]⟩⟩

/-- Witness for the amended C1 at `env0` and `udA4` (an A4 session): the
produced page is A4-sized and carries zero border. -/
theorem claim_C1_amended_page_geometry_witness :
    pageW.border_pt = 0 ∧
    pageW.width_pt = mm_to_pt 210 ∧ pageW.height_pt = mm_to_pt 297 :=
  ⟨(claim_C1_amended_page_geometry env0 udA4 cat0 pdfW false rfl pageW
      (List.mem_singleton.mpr rfl)).1,
    (claim_C1_amended_page_geometry env0 udA4 cat0 pdfW false rfl pageW
      (List.mem_singleton.mpr rfl)).2.1 rfl⟩

/-- C3: a successful conversion of a session holding K pending images yields
exactly K pages, and page i embeds the successfully normalized decode of the
i-th appended image: page order equals append (arrival) order. -/
theorem claim_C3_page_count_and_order (env : Env) (ud : UserData) (cat : Catalog)
    (pdf : List Page) (b : Bool)
    (h : (convert_to_pdf env ud cat).1 = .success pdf b) :
    pdf.length = ud.photos.length ∧
    List.Forall₂ (fun fid pg => ∃ raw b2, (env.files fid).decoded = some raw ∧
      ensure_image_dimensions raw = some (pg.image, b2)) ud.photos pdf := by
  obtain ⟨imgs, hdl, hpdf⟩ := convert_pdf_char env ud cat pdf b h
  have hf2 := download_images_ok env ud.photos 1 imgs hdl
  subst hpdf
  constructor
  · simp only [img2pdf_convert, List.length_map]
    exact (List.Forall₂.length_eq hf2).symm
  · simp only [img2pdf_convert]
    rw [List.forall₂_map_right_iff]
    refine hf2.imp ?_
    intro fid img hr
    obtain ⟨raw, b2, hdec, hnorm⟩ := hr
    exact ⟨raw, b2, hdec, by rw [mkPage_image]; exact hnorm⟩

/-- Witness for C3: the `udA4` session holds one photo and its conversion
produces the one-page `pdfW` whose page embeds the normalized decode. -/
theorem claim_C3_page_count_and_order_witness :
    pdfW.length = udA4.photos.length ∧
    List.Forall₂ (fun fid pg => ∃ raw b2, (env0.files fid).decoded = some raw ∧
      ensure_image_dimensions raw = some (pg.image, b2)) udA4.photos pdfW :=
  claim_C3_page_count_and_order env0 udA4 cat0 pdfW false rfl

/-- C4: a pipeline-fatal ConversionError (the outer `except` path, which also
notifies the user) leaves the session's pending list and options and the
files index exactly as they were, so a retry needs no re-sending; more
generally the session is cleared only on a fully successful conversion. -/
theorem claim_C4_error_preserves_session (env : Env) (ud : UserData) (cat : Catalog) :
    ((convert_to_pdf env ud cat).1 = .conversionError →
      (convert_to_pdf env ud cat).2.1 = ud ∧ (convert_to_pdf env ud cat).2.2 = cat) ∧
    ((convert_to_pdf env ud cat).1.isSuccess = false →
      (convert_to_pdf env ud cat).2.1 = ud ∧ (convert_to_pdf env ud cat).2.2 = cat) := by
  refine ⟨fun h => (convert_state_char env ud cat).1 (by rw [h]; rfl),
    (convert_state_char env ud cat).1⟩

/-- Witness for C4: under `envFail` (the converter raises) the outcome is
ConversionError and both the session and the index are unchanged. -/
theorem claim_C4_error_preserves_session_witness :
    ((convert_to_pdf envFail udA4 cat0).2.1 = udA4 ∧
      (convert_to_pdf envFail udA4 cat0).2.2 = cat0) ∧
    ((convert_to_pdf envFail udA4 cat0).2.1 = udA4 ∧
      (convert_to_pdf envFail udA4 cat0).2.2 = cat0) :=
  ⟨(claim_C4_error_preserves_session envFail udA4 cat0).1 rfl,
    (claim_C4_error_preserves_session envFail udA4 cat0).2 rfl⟩

/-- C7: converting a session with no pending images reports the "no images"
condition, produces no PDF, and leaves the session and the files index
untouched. -/
theorem claim_C7_empty_session (env : Env) (ud : UserData) (cat : Catalog)
    (h : ud.photos = []) :
    convert_to_pdf env ud cat = (.noImages, ud, cat) := by
  simp [convert_to_pdf, h]

/-- Witness for C7: the fresh session converts to the "no images" outcome. -/
theorem claim_C7_empty_session_witness :
    convert_to_pdf env0 {} cat0 = (.noImages, {}, cat0) :=
  claim_C7_empty_session env0 {} cat0 rfl

/-- C9: a successful conversion clears the whole per-user session dict,
options included, and a cleared session reads back the default options
(AUTO page size, 0 mm margin). -/
theorem claim_C9_success_clears_options (env : Env) (ud : UserData) (cat : Catalog)
    (pdf : List Page) (b : Bool)
    (h : (convert_to_pdf env ud cat).1 = .success pdf b) :
    (convert_to_pdf env ud cat).2.1 = ({} : UserData) ∧
    effPageSize {} = DEFAULT_PAGE_SIZE ∧
    effMarginMM {} = DEFAULT_MARGIN_MM :=
  ⟨(convert_state_char env ud cat).2 (by rw [h]; rfl), rfl, rfl⟩

/-- Witness for C9: after the successful `env0` conversion of `udA4` the
session dict is empty and reads back the defaults. -/
theorem claim_C9_success_clears_options_witness :
    (convert_to_pdf env0 udA4 cat0).2.1 = ({} : UserData) ∧
    effPageSize {} = DEFAULT_PAGE_SIZE ∧
    effMarginMM {} = DEFAULT_MARGIN_MM :=
  claim_C9_success_clears_options env0 udA4 cat0 pdfW false rfl

/-- C5: for an existing catalog entry, rename by a requester who is neither
the uploader nor an admin fails Unauthorized with the index unchanged;
rename by the uploader or an admin succeeds and the new title is visible in
a subsequent get; delete by any non-admin fails Unauthorized with the index
unchanged; delete by an admin removes the entry. -/
theorem claim_C5_catalog_authorization (cat : Catalog) (slug new_title : String)
    (uid : Int) (m : Meta)
    (hs : pyStrip slug = slug) (ht : pyStrip new_title = new_title)
    (hm : cat slug = some m) :
    ((m.uploader ≠ some uid ∧ is_admin uid = false) →
      rename_cmd cat [slug, new_title] uid = (.unauthorized, cat)) ∧
    ((m.uploader = some uid ∨ is_admin uid = true) →
      (rename_cmd cat [slug, new_title] uid).1 = .done ∧
      get_cmd (rename_cmd cat [slug, new_title] uid).2 [slug] =
        some { m with title := new_title }) ∧
    (is_admin uid = false → delete_cmd cat [slug] uid = (.unauthorized, cat)) ∧
    (is_admin uid = true →
      (delete_cmd cat [slug] uid).1 = .done ∧
      (delete_cmd cat [slug] uid).2 slug = none) := by
  have hren : rename_cmd cat [slug, new_title] uid =
      (if m.uploader ≠ some uid ∧ is_admin uid = false then (.unauthorized, cat)
       else (.done, cat.set slug { m with title := new_title })) := by
    simp only [rename_cmd]
    rw [if_neg (by simp)]
    simp only [List.headD_cons, List.tail_cons]
    rw [show String.intercalate " " [new_title] = new_title from rfl, hs, ht, hm]
  have hdel : delete_cmd cat [slug] uid =
      (if is_admin uid = false then (.unauthorized, cat)
       else (.done, cat.del slug)) := by
    simp only [delete_cmd]
    by_cases hadm : is_admin uid = false
    · rw [if_pos hadm, if_pos hadm]
    · rw [if_neg hadm, if_neg hadm, hs, hm]
  refine ⟨fun hcond => by rw [hren, if_pos hcond], fun hcond => ?_, ?_, ?_⟩
  · have hneg : ¬(m.uploader ≠ some uid ∧ is_admin uid = false) := by
      rcases hcond with hup | hadm
      · exact fun hc => hc.1 hup
      · exact fun hc => by rw [hadm] at hc; exact absurd hc.2 (by simp)
    rw [hren, if_neg hneg]
    exact ⟨rfl, by simp [get_cmd, Catalog.set, hs]⟩
  · intro hadm
    rw [hdel, if_pos hadm]
  · intro hadm
    rw [hdel, if_neg (by simp [hadm])]
    exact ⟨rfl, by simp [Catalog.del]⟩

/-- Witness for C5 on a one-entry catalog: requester 9 (neither uploader nor
admin) cannot rename or delete; the uploader 7 renames successfully and the
new title is visible via get; the configured admin deletes the entry. -/
theorem claim_C5_catalog_authorization_witness :
    rename_cmd cat1 ["doc_1a2b3c", "New"] 9 = (.unauthorized, cat1) ∧
    ((rename_cmd cat1 ["doc_1a2b3c", "New"] 7).1 = .done ∧
      get_cmd (rename_cmd cat1 ["doc_1a2b3c", "New"] 7).2 ["doc_1a2b3c"] =
        some { meta1 with title := "New" }) ∧
    delete_cmd cat1 ["doc_1a2b3c"] 9 = (.unauthorized, cat1) ∧
    ((delete_cmd cat1 ["doc_1a2b3c"] 6047187036).1 = .done ∧
      (delete_cmd cat1 ["doc_1a2b3c"] 6047187036).2 "doc_1a2b3c" = none) :=
  ⟨(claim_C5_catalog_authorization cat1 "doc_1a2b3c" "New" 9 meta1 rfl rfl rfl).1
      (by decide),
    (claim_C5_catalog_authorization cat1 "doc_1a2b3c" "New" 7 meta1 rfl rfl rfl).2.1
      (Or.inl rfl),
    (claim_C5_catalog_authorization cat1 "doc_1a2b3c" "New" 9 meta1 rfl rfl rfl).2.2.1
      (by decide),
    (claim_C5_catalog_authorization cat1 "doc_1a2b3c" "New" 6047187036 meta1
      rfl rfl rfl).2.2.2 (by decide)⟩

/-- C10: the imghdr replacement is total relative to its Pillow oracle: on
every call shape it returns either a lowercase format string (the lowercasing
of the oracle's format) or None; it returns None on empty header bytes, empty
raw bytes, a file-like whose read raises, and on any data the oracle cannot
decode.  All exception paths of the source return None. -/
theorem claim_C10_imghdr_total (decode : List Nat → Option String) :
    (∀ input : WhatInput, what decode input = none ∨
      ∃ fmt : String, what decode input = some fmt.toLower) ∧
    what decode (.header []) = none ∧
    what decode (.rawBytes []) = none ∧
    what decode (.fileLike none) = none ∧
    (∀ d : List Nat, decode d = none → what decode (.header d) = none) := by
  have hcont : ∀ d : List Nat, what decode (.header d) = none ∨
      ∃ fmt : String, what decode (.header d) = some fmt.toLower := by
    intro d
    by_cases hd : d = []
    · left; simp [what, hd]
    · rcases hdec : decode d with _ | fmt
      · left; simp [what, hd, hdec]
      · by_cases hf : fmt = ""
        · left; simp [what, hd, hdec, hf]
        · right; exact ⟨fmt, by simp [what, hd, hdec, hf]⟩
  refine ⟨?_, rfl, rfl, rfl, ?_⟩
  · intro input
    rcases input with d | b | r
    · exact hcont d
    · exact hcont b
    · rcases r with _ | d
      · left; rfl
      · exact hcont d
  · intro d hdec
    by_cases hd : d = []
    · simp [what, hd]
    · simp [what, hd, hdec]

/-- Witness for C10: undecodable header bytes yield None. -/
theorem claim_C10_imghdr_total_witness :
    what (fun _ => none) (.header [255, 216]) = none :=
  (claim_C10_imghdr_total (fun _ => none)).2.2.2.2 [255, 216] rfl

end Laxman
